/-
Verification of the mitm-api request-capturing reverse proxy.

This development gives a shallow embedding of the Python source
(`main.py`, `utils.py`) and proves properties of it.  Python strings and
byte strings are modelled as lists of code points (`List Nat`); Python
dictionaries are modelled as association lists whose keys are unique
(the `dict` invariant); JSON-like Python values are modelled by the
mutually inductive `PyVal`/`PyList`/`PyDict`.  External libraries
(compression codecs, UTF-8 decoding, JSON parsing, URL parsing, query
rendering) are modelled as oracle parameters, matching the spec's view
of them as pluggable external functions.  The async handlers are
straight-line per-exchange functions, so each is embedded as a function
from its inputs and the shared state to a result, the updated state and
an ordered trace of capture/forward events.
-/
import Mathlib

namespace MitmApi

/-! ### Python string model: code-point lists -/

/-- A Python `str`, as its sequence of code points. -/
abbrev PyStr := List Nat

/-- A Python `bytes`, as its sequence of byte values. -/
abbrev Bytes := List Nat

/-- Code points of a string literal. -/
def pystr (s : String) : PyStr := s.data.map Char.toNat

/-- ASCII lower-casing of one code point (`str.lower` on the ASCII range
used by header names and the redaction constants). -/
def asciiLower (n : Nat) : Nat := if 65 ≤ n ∧ n ≤ 90 then n + 32 else n

/-- Python `s.lower()`. -/
def lowerS (s : PyStr) : PyStr := s.map asciiLower

/-- Python `s.startswith(p)`. -/
def isPrefixB : PyStr → PyStr → Bool
  | [], _ => true
  | _ :: _, [] => false
  | p :: ps, c :: cs => decide (p = c) && isPrefixB ps cs

/-- Python `needle in haystack` (substring test). -/
def isInfixB : PyStr → PyStr → Bool
  | needle, [] => isPrefixB needle []
  | needle, c :: cs => isPrefixB needle (c :: cs) || isInfixB needle cs

/-- Python `s.rstrip("/")`. -/
def rstripSlash (s : PyStr) : PyStr :=
  ((s.reverse).dropWhile (fun c => decide (c = 47))).reverse

/-- Truthiness of an optional Python string: `None` and `""` are falsy. -/
def truthyS : Option PyStr → Bool
  | none => false
  | some s => decide (s ≠ [])

/-! ### JSON-like Python values -/

mutual
/-- A Python value as handled by `redact_sensitive_data` and stored in
capture records: strings, numbers, booleans, `None`, lists, dicts. -/
inductive PyVal where
  | str (s : PyStr)
  | int (n : Int)
  | bool (b : Bool)
  | pynone
  | list (items : PyList)
  | dict (entries : PyDict)
deriving DecidableEq

/-- A Python list of values. -/
inductive PyList where
  | nil
  | cons (hd : PyVal) (tl : PyList)
deriving DecidableEq

/-- A Python dict, as its ordered key/value entries (keys unique). -/
inductive PyDict where
  | nil
  | cons (k : PyStr) (v : PyVal) (tl : PyDict)
deriving DecidableEq
end

/-! ### utils.py: redact_sensitive_data and decompress_body -/

/-- The `sensitive_keys` set of `utils.redact_sensitive_data`. -/
def sensitive_keys : List PyStr :=
  [pystr "authorization", pystr "proxy-authorization", pystr "cookie",
   pystr "set-cookie", pystr "api-key", pystr "apikey", pystr "x-api-key",
   pystr "access_token", pystr "refresh_token", pystr "password",
   pystr "secret", pystr "token", pystr "key", pystr "auth"]

/-- The substring probes of `utils.redact_sensitive_data`
(`any(sk in k_lower for sk in [...])`). -/
def substring_probes : List PyStr :=
  [pystr "authorization", pystr "secret", pystr "password", pystr "key"]

/-- `is_sensitive` test on a dict key, from `utils.redact_sensitive_data`:
`k_lower in sensitive_keys or any(sk in k_lower for sk in [...])`. -/
def is_sensitive (k : PyStr) : Bool :=
  sensitive_keys.contains (lowerS k)
    || substring_probes.any (fun sk => isInfixB sk (lowerS k))

/-- The value test `isinstance(v, str) and v.lower().startswith("bearer ")`. -/
def isBearerVal : PyVal → Bool
  | .str s => isPrefixB (pystr "bearer ") (lowerS s)
  | _ => false

mutual
/-- `utils.redact_sensitive_data`, recursing through dicts and lists. -/
def redact_sensitive_data : PyVal → PyVal
  | .dict es => .dict (redactDict es)
  | .list xs => .list (redactList xs)
  | v => v

/-- The list comprehension branch of `redact_sensitive_data`. -/
def redactList : PyList → PyList
  | .nil => .nil
  | .cons x xs => .cons (redact_sensitive_data x) (redactList xs)

/-- The dict branch of `redact_sensitive_data`: sensitive keys get their
value replaced, other values are recursively redacted. -/
def redactDict : PyDict → PyDict
  | .nil => .nil
  | .cons k v es =>
      .cons k
        (if is_sensitive k then
          (if isBearerVal v then .str (pystr "Bearer [REDACTED]")
           else .str (pystr "[REDACTED]"))
         else redact_sensitive_data v)
        (redactDict es)
end

/-- The per-entry transformation performed by the dict branch of
`redact_sensitive_data`. -/
def redactEntryVal (k : PyStr) (v : PyVal) : PyVal :=
  if is_sensitive k then
    (if isBearerVal v then .str (pystr "Bearer [REDACTED]")
     else .str (pystr "[REDACTED]"))
  else redact_sensitive_data v

/-- Atomic (non-dict, non-list) Python values. -/
def isAtom : PyVal → Bool
  | .list _ => false
  | .dict _ => false
  | _ => true

/-- `utils.decompress_body`: empty bodies and unknown encodings pass
through; for gzip/br/deflate the external codec is consulted, and a
codec failure (an exception in the source, `none` here) returns the
original bytes. -/
def decompress_body (dec : PyStr → Bytes → Option Bytes) (body : Bytes)
    (encoding : PyStr) : Bytes :=
  if body = [] then body
  else if encoding = pystr "gzip" ∨ encoding = pystr "br" ∨ encoding = pystr "deflate" then
    match dec encoding body with
    | some out => out
    | none => body
  else body

/-! ### main.py: load_history -/

/-- One persisted record as loaded from a session directory: the fields
`load_history` inspects (`id`, `timestamp`, both possibly absent), plus
the rest of the parsed JSON, uninterpreted. -/
structure StoredRec where
  id : Option PyStr
  timestamp : Option PyStr
  payload : PyStr
deriving DecidableEq

/-- The `sort_key` closure inside `main.load_history`:
`item.get("timestamp", "")`, falling back to
`item.get("id", "0000-00-00T00:00:00")` when that is missing or empty. -/
def sort_key (r : StoredRec) : PyStr :=
  let ts := r.timestamp.getD []
  if ts = [] then r.id.getD (pystr "0000-00-00T00:00:00") else ts

/-- Comparison used by `loaded_history.sort(key=sort_key)`: Python sorts
strings lexicographically by code point, which is the lexicographic
order on code-point lists. -/
def keyLe (a b : StoredRec) : Prop := sort_key a ≤ sort_key b

instance : DecidableRel keyLe :=
  fun a b => inferInstanceAs (Decidable (sort_key a ≤ sort_key b))

instance : IsTotal StoredRec keyLe :=
  ⟨fun a b => le_total (sort_key a) (sort_key b)⟩

instance : IsTrans StoredRec keyLe :=
  ⟨fun _ _ _ hab hbc => le_trans hab hbc⟩

/-- `main.load_history`, applied to the records parsed from the session
directory.  `glob.glob` enumerates the record files in an unspecified
order, so theorems quantify over permutations of `files`.  Python's
`list.sort` is a stable sort by `sort_key`; a stable sort by a total
preorder is extensionally `List.insertionSort`. -/
def load_history (files : List StoredRec) : List StoredRec :=
  List.insertionSort keyLe files

/-! ### main.py: HTTP forwarder state and helpers -/

/-- A Python `dict[str, str]` (headers, query parameters), as its
ordered entries; keys are unique as in a Python dict. -/
abbrev HDict := List (PyStr × PyStr)

/-- `d.pop(k, None)` on a string dict: the entry with key `k` removed. -/
def popKey (k : PyStr) (d : HDict) : HDict :=
  d.filter (fun kv => decide (kv.1 ≠ k))

/-- `d.get(k)` on a string dict. -/
def getKey (k : PyStr) (d : HDict) : Option PyStr :=
  (d.find? (fun kv => decide (kv.1 = k))).map (fun kv => kv.2)

/-- A string dict as the `PyVal` dict handed to `redact_sensitive_data`. -/
def toPyDict : HDict → PyDict
  | [] => .nil
  | (k, v) :: d => .cons k (.str v) (toPyDict d)

/-- The value `redact_sensitive_data` stores for one header entry. -/
def redactHeaderVal (k v : PyStr) : PyStr :=
  if is_sensitive k then
    (if isPrefixB (pystr "bearer ") (lowerS v) then pystr "Bearer [REDACTED]"
     else pystr "[REDACTED]")
  else v

/-- `redact_sensitive_data` restricted to a string dict (headers). -/
def redactHeaders (d : HDict) : HDict :=
  d.map (fun kv => (kv.1, redactHeaderVal kv.1 kv.2))

/-- Session ("analysis") metadata read by the forwarder. -/
structure Analysis where
  redact_sensitive : Bool
deriving DecidableEq

/-- The `response` sub-object of a persisted HTTP record. -/
structure RespData where
  status_code : Nat
  headers : HDict
  body : Option PyStr
  body_json : Option PyVal
deriving DecidableEq

/-- A persisted HTTP capture record (`request_data` in `catch_all`). -/
structure HttpRecord where
  id : PyStr
  timestamp : PyStr
  method : PyStr
  path : PyStr
  query_params : HDict
  headers : HDict
  body : Option PyStr
  body_json : Option PyVal
  response : Option RespData
deriving DecidableEq

/-- The process-wide shared state read and written by `catch_all`:
the active redirect endpoint, the active analysis id, the analysis
registry, the in-memory history and the persisted record files of the
active analysis (keyed by record id).  The history field holds the
HTTP records; WebSocket records are modelled separately. -/
structure ProxyState where
  redirect_endpoint : Option PyStr
  current_analysis_id : Option PyStr
  analyses : List (PyStr × Analysis)
  requests_history : List HttpRecord
  files : List (PyStr × HttpRecord)
deriving DecidableEq

/-- `get_analysis(current_analysis_id) if current_analysis_id else None`. -/
def currentAnalysis (st : ProxyState) : Option Analysis :=
  if truthyS st.current_analysis_id then
    (st.analyses.find? (fun kv => decide (kv.1 = st.current_analysis_id.getD []))).map
      (fun kv => kv.2)
  else none

/-- `current_analysis and current_analysis.get("redact_sensitive")`. -/
def redactFlag (st : ProxyState) : Bool :=
  match currentAnalysis st with
  | some a => a.redact_sensitive
  | none => false

/-- An inbound HTTP request: method, the `{path:path}` parameter (no
leading slash), query parameters, headers (lower-cased keys, as ASGI
delivers them), raw body bytes. -/
structure Req where
  method : PyStr
  path : PyStr
  query_params : HDict
  headers : HDict
  body : Bytes
deriving DecidableEq

/-- The upstream's observable behaviour for one forwarded exchange:
either opening the connection raises before headers are received, or it
yields a status, response headers (lower-cased keys, as httpx exposes
them) and the sequence of body chunks. -/
inductive Upstream where
  | connectFail (msg : PyStr)
  | ok (status_code : Nat) (headers : HDict) (chunks : List Bytes)
deriving DecidableEq

/-- Capture/forward events of one exchange, in program order. -/
inductive Ev where
  | historyAppend (rid : PyStr)
  | fileWrite (rid : PyStr)
  | upstreamIssue (url : PyStr) (headers : HDict) (body : Bytes)
  | chunkOut (c : Bytes)
deriving DecidableEq

/-- The response returned to the original caller. -/
inductive HttpResp where
  | plain (status : Nat)
  | jsonBody (status : Nat) (body : PyVal)
  | streaming (status : Nat) (headers : HDict) (media_type : PyStr) (chunks : List Bytes)
deriving DecidableEq

/-- Result of one run of `catch_all`: response, final state, event trace. -/
structure CatchAllResult where
  resp : HttpResp
  state : ProxyState
  events : List Ev
deriving DecidableEq

/-- Writing the record file `{rid}.json` (overwrite-in-place). -/
def setFile (files : List (PyStr × HttpRecord)) (rid : PyStr) (r : HttpRecord) :
    List (PyStr × HttpRecord) :=
  (files.filter (fun kv => decide (kv.1 ≠ rid))) ++ [(rid, r)]

/-- `main.save_request`: skips the durable write (with a warning) when
no analysis is selected. -/
def save_request (cur : Option PyStr) (files : List (PyStr × HttpRecord))
    (rid : PyStr) (r : HttpRecord) : List (PyStr × HttpRecord) × List Ev :=
  if truthyS cur then (setFile files rid r, [Ev.fileWrite rid]) else (files, [])

/-- `f"/{path}" if path else "/"`. -/
def recordPath (path : PyStr) : PyStr :=
  if path ≠ [] then pystr "/" ++ path else pystr "/"

/-- External dependencies of the handlers, as oracles: compression
codecs, strict UTF-8 decoding (`none` = `UnicodeDecodeError`),
replacement-mode UTF-8 decoding, JSON parsing (`none` = parse error),
`str(request.query_params)` rendering, `urllib.parse.urlparse`. -/
structure UrlParts where
  scheme : PyStr
  netloc : PyStr
  upath : PyStr
  query : PyStr
deriving DecidableEq

structure Ext where
  decompress : PyStr → Bytes → Option Bytes
  utf8Strict : Bytes → Option PyStr
  utf8Replace : Bytes → PyStr
  parseJson : PyStr → Option PyVal
  renderQuery : HDict → PyStr
  parseUrl : PyStr → UrlParts

/-- The forward target
`f"{endpoint.rstrip('/')}/{path}" if path else endpoint.rstrip('/')`,
plus the query string when query parameters are present. -/
def target_url (ext : Ext) (ep path : PyStr) (qp : HDict) : PyStr :=
  let base := if path ≠ [] then rstripSlash ep ++ pystr "/" ++ path else rstripSlash ep
  if qp ≠ [] then base ++ pystr "?" ++ ext.renderQuery qp else base

/-- `body.decode("utf-8") if body else None`: `none` when the handler
raises `UnicodeDecodeError`, otherwise the optional decoded text. -/
def bodyTextOf (ext : Ext) (b : Bytes) : Option (Option PyStr) :=
  if b = [] then some none
  else match ext.utf8Strict b with
    | some s => some (some s)
    | none => none

/-- The `request_data` record built by `catch_all` before forwarding:
host header stripped, headers redacted when the active analysis has
redaction enabled, body kept verbatim, `body_json` from a best-effort
JSON parse, no response yet. -/
def requestRecordOf (ext : Ext) (st : ProxyState) (req : Req) (rid now : PyStr)
    (bodyText : Option PyStr) : HttpRecord :=
  ⟨rid, now, req.method, recordPath req.path, req.query_params,
   (if redactFlag st then redactHeaders (popKey (pystr "host") req.headers)
    else popKey (pystr "host") req.headers),
   bodyText, bodyText.bind ext.parseJson, none⟩

/-- The headers sent upstream:
`{k: v for k, v in headers.items() if k.lower() not in ["host", "content-length"]}`
applied to the already host-popped header dict. -/
def outboundHeaders (req : Req) : HDict :=
  (popKey (pystr "host") req.headers).filter
    (fun kv => decide (lowerS kv.1 ∉ [pystr "host", pystr "content-length"]))

/-- Headers relayed downstream: upstream headers with `content-length`,
`transfer-encoding` and `content-encoding` popped. -/
def response_headers_of (uhdrs : HDict) : HDict :=
  popKey (pystr "content-encoding")
    (popKey (pystr "transfer-encoding") (popKey (pystr "content-length") uhdrs))

/-- `response_headers.get("content-type", "application/octet-stream")`. -/
def content_type_of (uhdrs : HDict) : PyStr :=
  (getKey (pystr "content-type") (response_headers_of uhdrs)).getD
    (pystr "application/octet-stream")

/-- `response.headers.get("content-encoding", "").lower()`. -/
def content_encoding_of (uhdrs : HDict) : PyStr :=
  lowerS ((getKey (pystr "content-encoding") uhdrs).getD [])

/-- `content_encoding in ["gzip", "br", "deflate"]`. -/
def compressed_encodings : List PyStr :=
  [pystr "gzip", pystr "br", pystr "deflate"]

/-- The accumulated response body after the stream ends, decompressed
when the upstream declared a compressed encoding. -/
def final_body_of (ext : Ext) (uhdrs : HDict) (chunks : List Bytes) : Bytes :=
  if compressed_encodings.contains (content_encoding_of uhdrs) then
    decompress_body ext.decompress chunks.flatten (content_encoding_of uhdrs)
  else chunks.flatten

/-- The chunks the generator yields downstream: the single decompressed
payload for compressed bodies, the live chunks otherwise. -/
def out_chunks_of (ext : Ext) (uhdrs : HDict) (chunks : List Bytes) : List Bytes :=
  if compressed_encodings.contains (content_encoding_of uhdrs) then
    [decompress_body ext.decompress chunks.flatten (content_encoding_of uhdrs)]
  else chunks

/-- The `resp_data` the generator's `finally` block attaches to the
record: status, response headers redacted when the analysis asks for it,
body decoded with replacement (or `None` when empty), `body_json` from a
best-effort strict decode + JSON parse. -/
def responseDataOf (ext : Ext) (st : ProxyState) (status : Nat) (uhdrs : HDict)
    (chunks : List Bytes) : RespData :=
  ⟨status,
   (if redactFlag st then redactHeaders uhdrs else uhdrs),
   (if final_body_of ext uhdrs chunks = [] then none
    else some (ext.utf8Replace (final_body_of ext uhdrs chunks))),
   (if final_body_of ext uhdrs chunks = [] then none
    else match ext.utf8Strict (final_body_of ext uhdrs chunks) with
      | some s => ext.parseJson s
      | none => none)⟩

/-- `JSONResponse` body for the missing-endpoint rejection. -/
def noEndpointBody : PyVal :=
  .dict (.cons (pystr "error")
    (.str (pystr "No redirect endpoint configured. Please configure at /___configure")) .nil)

/-- `JSONResponse` body for an upstream connection failure. -/
def connectFailBody (msg : PyStr) : PyVal :=
  .dict (.cons (pystr "error") (.str (pystr "Failed to forward request: " ++ msg)) .nil)

/-- `main.catch_all`, run to completion for one exchange (including the
`StreamingResponse` generator and its `finally` block, which the ASGI
server drives after the handler returns).  Returns `none` when the
handler raises (`UnicodeDecodeError` from `body.decode("utf-8")` on an
undecodable request body); otherwise the response, the final state and
the ordered trace of capture/forward events.  The second durable write
stores the record with the response attached; a third write follows
when the response body parses as JSON. -/
def catch_all (ext : Ext) (up : Upstream) (st : ProxyState) (req : Req)
    (rid now : PyStr) : Option CatchAllResult :=
  if req.path = pystr "favicon.ico" then
    some ⟨.plain 200, st, []⟩
  else if truthyS st.redirect_endpoint = false then
    some ⟨.jsonBody 400 noEndpointBody, st, []⟩
  else
    match bodyTextOf ext req.body with
    | none => none
    | some bodyText =>
      let rec0 := requestRecordOf ext st req rid now bodyText
      let save1 := save_request st.current_analysis_id st.files rid rec0
      let url := target_url ext (st.redirect_endpoint.getD []) req.path req.query_params
      let ev2 := Ev.historyAppend rid :: save1.2
        ++ [Ev.upstreamIssue url (outboundHeaders req) req.body]
      match up with
      | .connectFail msg =>
          some ⟨.jsonBody 502 (connectFailBody msg),
            { st with requests_history := st.requests_history ++ [rec0],
                      files := save1.1 }, ev2⟩
      | .ok status uhdrs chunks =>
          let resp1 := responseDataOf ext st status uhdrs chunks
          let recNoJson := { rec0 with response := some { resp1 with body_json := none } }
          let rec1 := { rec0 with response := some resp1 }
          let save2 := save_request st.current_analysis_id save1.1 rid recNoJson
          let save3 :=
            if resp1.body_json.isSome then save_request st.current_analysis_id save2.1 rid rec1
            else (save2.1, [])
          some ⟨.streaming status (response_headers_of uhdrs) (content_type_of uhdrs)
              (out_chunks_of ext uhdrs chunks),
            { st with requests_history := st.requests_history ++ [rec1],
                      files := save3.1 },
            ev2 ++ (out_chunks_of ext uhdrs chunks).map Ev.chunkOut ++ save2.2 ++ save3.2⟩

/-- The request record as built for an exchange whose body decodes
(`bodyTextOf` returned `some`). -/
def requestPhase (ext : Ext) (st : ProxyState) (req : Req) (rid now : PyStr) : HttpRecord :=
  requestRecordOf ext st req rid now (if req.body = [] then none else ext.utf8Strict req.body)

/-- The upstream-issue event of an exchange. -/
def issueEv (ext : Ext) (st : ProxyState) (req : Req) : Ev :=
  Ev.upstreamIssue (target_url ext (st.redirect_endpoint.getD []) req.path req.query_params)
    (outboundHeaders req) req.body

/-- The result of `catch_all` when the upstream connection fails before
headers are received: a 502 JSON error to the caller, the state exactly
as left by the request-phase append and save, and no chunk events. -/
def connectFailResult (ext : Ext) (st : ProxyState) (req : Req)
    (rid now msg : PyStr) : CatchAllResult :=
  let rec0 := requestPhase ext st req rid now
  let save1 := save_request st.current_analysis_id st.files rid rec0
  ⟨.jsonBody 502 (connectFailBody msg),
   { st with requests_history := st.requests_history ++ [rec0], files := save1.1 },
   Ev.historyAppend rid :: save1.2 ++ [issueEv ext st req]⟩

/-- The result of `catch_all` for a successful upstream exchange. -/
def okResult (ext : Ext) (st : ProxyState) (req : Req) (rid now : PyStr)
    (status : Nat) (uhdrs : HDict) (chunks : List Bytes) : CatchAllResult :=
  let rec0 := requestPhase ext st req rid now
  let save1 := save_request st.current_analysis_id st.files rid rec0
  let resp1 := responseDataOf ext st status uhdrs chunks
  let recNoJson := { rec0 with response := some { resp1 with body_json := none } }
  let rec1 := { rec0 with response := some resp1 }
  let save2 := save_request st.current_analysis_id save1.1 rid recNoJson
  let save3 :=
    if resp1.body_json.isSome then save_request st.current_analysis_id save2.1 rid rec1
    else (save2.1, [])
  ⟨.streaming status (response_headers_of uhdrs) (content_type_of uhdrs)
      (out_chunks_of ext uhdrs chunks),
   { st with requests_history := st.requests_history ++ [rec1], files := save3.1 },
   (Ev.historyAppend rid :: save1.2 ++ [issueEv ext st req])
     ++ (out_chunks_of ext uhdrs chunks).map Ev.chunkOut ++ save2.2 ++ save3.2⟩

/-- The headers of the first `upstreamIssue` event of a trace. -/
def issuedHeaders : List Ev → Option HDict
  | [] => none
  | Ev.upstreamIssue _ h _ :: _ => some h
  | Ev.historyAppend _ :: t => issuedHeaders t
  | Ev.fileWrite _ :: t => issuedHeaders t
  | Ev.chunkOut _ :: t => issuedHeaders t

/-- Recognizers for trace events. -/
def isFileWriteEv : Ev → Bool
  | Ev.fileWrite _ => true
  | _ => false

def isIssueEv : Ev → Bool
  | Ev.upstreamIssue _ _ _ => true
  | _ => false

/-- The `response.body` field of the last history record, if any. -/
def lastRespBody (r : CatchAllResult) : Option (Option PyStr) :=
  (r.state.requests_history.getLast?.bind (fun rc => rc.response)).map
    (fun resp => resp.body)

/-- The last record of the in-memory history. -/
def lastRecord (r : CatchAllResult) : Option HttpRecord :=
  r.state.requests_history.getLast?

/-! ### main.py: websocket_endpoint -/

/-- A WebSocket frame from either peer. -/
inductive WsFrame where
  | text (s : PyStr)
  | binary (b : Bytes)
deriving DecidableEq

/-- One entry of a WebSocket record's `messages` list.  The source keys
are `direction`, `timestamp`, `content`, `type`. -/
structure WsMsg where
  direction : PyStr
  timestamp : PyStr
  content : PyStr
  msgtype : PyStr
deriving DecidableEq

/-- A persisted WebSocket capture record (`ws_data` in the source; the
source key for `rectype` is `type`, always `"websocket"`). -/
structure WsRecord where
  id : PyStr
  timestamp : PyStr
  rectype : PyStr
  path : PyStr
  url : PyStr
  messages : List WsMsg
  error : Option PyStr
deriving DecidableEq

/-- One observed frame relay: direction flag (true = client → server),
its capture timestamp, and the frame. -/
structure WsObs where
  clientToServer : Bool
  timestamp : PyStr
  frame : WsFrame
deriving DecidableEq

/-- The message entry either relay loop appends for one observed frame:
binary payloads are decoded as UTF-8 with replacement, text payloads are
stored verbatim; no redaction is applied. -/
def wsMessageOf (ext : Ext) (o : WsObs) : WsMsg :=
  ⟨(if o.clientToServer then pystr "client->server" else pystr "server->client"),
   o.timestamp,
   (match o.frame with
    | .text s => s
    | .binary b => ext.utf8Replace b),
   (match o.frame with
    | .text _ => pystr "text"
    | .binary _ => pystr "binary")⟩

/-- The upstream WebSocket URL: scheme swapped to ws/wss, endpoint base
path joined with the inbound path, query preserved. -/
def ws_url_of (ext : Ext) (endpoint path : PyStr) : PyStr :=
  let parsed := ext.parseUrl endpoint
  let scheme := if parsed.scheme = pystr "https" then pystr "wss" else pystr "ws"
  let wpath0 :=
    if path ≠ [] then rstripSlash parsed.upath ++ pystr "/" ++ path
    else rstripSlash parsed.upath
  let wpath := if parsed.query ≠ [] then wpath0 ++ pystr "?" ++ parsed.query else wpath0
  scheme ++ pystr "://" ++ parsed.netloc ++ wpath

/-- The upstream's observable behaviour for one bridged connection:
either `websockets.connect` raises, or the bridge runs and the two
concurrently scheduled relay loops observe `observed` frames, in the
order they were appended to the shared record (the cross-direction
interleaving is unspecified, so it is an input here). -/
inductive WsUpstream where
  | connectFail (msg : PyStr)
  | ok (observed : List WsObs)
deriving DecidableEq

/-- Result of one run of `websocket_endpoint`: the `close(code, reason)`
calls issued on the inbound socket, whether the idempotent final
`close()` of the `finally` block ran, whether the connection was
accepted, the WebSocket records in the history, the persisted WebSocket
record files, and the capture events. -/
structure WsResult where
  closes : List (Nat × PyStr)
  finalCloseAttempt : Bool
  accepted : Bool
  history : List WsRecord
  files : List (PyStr × WsRecord)
  events : List Ev
deriving DecidableEq

/-- Writing the WebSocket record file `{rid}.json` (overwrite-in-place). -/
def setWsFile (files : List (PyStr × WsRecord)) (rid : PyStr) (r : WsRecord) :
    List (PyStr × WsRecord) :=
  (files.filter (fun kv => decide (kv.1 ≠ rid))) ++ [(rid, r)]

/-- `main.save_request` for a WebSocket record: skipped when no analysis
is selected. -/
def save_ws_request (cur : Option PyStr) (files : List (PyStr × WsRecord))
    (rid : PyStr) (r : WsRecord) : List (PyStr × WsRecord) × List Ev :=
  if truthyS cur then (setWsFile files rid r, [Ev.fileWrite rid]) else (files, [])

/-- `main.websocket_endpoint`, run to completion for one connection.
The history and files arguments hold the WebSocket records of the
shared store (HTTP records are modelled separately). -/
def websocket_endpoint (ext : Ext) (upws : WsUpstream)
    (redirect_endpoint cur : Option PyStr)
    (history : List WsRecord) (files : List (PyStr × WsRecord))
    (path rid now : PyStr) : WsResult :=
  if truthyS redirect_endpoint = false then
    ⟨[(1008, pystr "No redirect endpoint configured")], false, false, history, files, []⟩
  else
    let url := ws_url_of ext (redirect_endpoint.getD []) path
    let base : WsRecord := ⟨rid, now, pystr "websocket", recordPath path, url, [], none⟩
    match upws with
    | .connectFail msg =>
        let wsrec := { base with error := some msg }
        let save := save_ws_request cur files rid wsrec
        ⟨[(1011, pystr "Upstream connection failed: " ++ msg)], true, true,
         history ++ [wsrec], save.1, Ev.historyAppend rid :: save.2⟩
    | .ok observed =>
        let wsrec := { base with messages := observed.map (wsMessageOf ext) }
        let save := save_ws_request cur files rid wsrec
        ⟨[], true, true, history ++ [wsrec], save.1, Ev.historyAppend rid :: save.2⟩

/-! ### Concrete fixtures for witnesses and counterexamples -/

/-- Concrete oracle functions for closed evaluations. -/
def ext0 : Ext :=
  ⟨fun _ _ => none, fun b => some b, fun b => b, fun _ => none,
   fun _ => [], fun _ => ⟨[], [], [], []⟩⟩

/-- A state with an active analysis (redaction off). -/
def st0 : ProxyState :=
  ⟨some (pystr "http://upstream"), some (pystr "aid"),
   [(pystr "aid", ⟨false⟩)], [], []⟩

/-- A state with a redirect endpoint from the environment but no
analysis selected. -/
def stNoAnalysis : ProxyState :=
  ⟨some (pystr "http://upstream"), none, [], [], []⟩

/-- A state with an active analysis that has redaction enabled. -/
def stRedact : ProxyState :=
  ⟨some (pystr "http://upstream"), some (pystr "aid"),
   [(pystr "aid", ⟨true⟩)], [], []⟩

/-- A state with no redirect endpoint. -/
def stNoEndpoint : ProxyState :=
  ⟨none, some (pystr "aid"), [(pystr "aid", ⟨false⟩)], [], []⟩

/-- A plain GET request with empty body. -/
def req0 : Req := ⟨pystr "GET", pystr "x", [], [], []⟩

/-- A request carrying `host` and `content-length` headers. -/
def req6 : Req :=
  ⟨pystr "GET", pystr "x", [],
   [(pystr "host", pystr "proxy.example"), (pystr "content-length", pystr "5")], []⟩

def rid0 : PyStr := pystr "00000000-0000-0000-0000-000000000001"

def now0 : PyStr := pystr "2024-01-01T00:00:00"

/-! ### Theorems: redaction (claims C4, C10) -/

theorem redactDict_cons (k : PyStr) (v : PyVal) (es : PyDict) :
    redactDict (.cons k v es) = .cons k (redactEntryVal k v) (redactDict es) := by
  rfl

theorem bearer_redacted_is_bearer :
    isBearerVal (.str (pystr "Bearer [REDACTED]")) = true := by decide

theorem redacted_not_bearer :
    isBearerVal (.str (pystr "[REDACTED]")) = false := by decide

theorem redactEntryVal_idem (k : PyStr) :
    ∀ v, redact_sensitive_data (redact_sensitive_data v) = redact_sensitive_data v →
      redactEntryVal k (redactEntryVal k v) = redactEntryVal k v := by
  intro v hv
  by_cases hk : is_sensitive k = true
  · by_cases hb : isBearerVal v = true
    · simp [redactEntryVal, hk, hb, bearer_redacted_is_bearer]
    · simp [redactEntryVal, hk, hb, redacted_not_bearer]
  · simp [redactEntryVal, hk, hv]

mutual
theorem redact_idem_val :
    ∀ v, redact_sensitive_data (redact_sensitive_data v) = redact_sensitive_data v
  | .str _ => rfl
  | .int _ => rfl
  | .bool _ => rfl
  | .pynone => rfl
  | .list xs => by
      simp only [redact_sensitive_data]
      exact congrArg PyVal.list (redact_idem_list xs)
  | .dict es => by
      simp only [redact_sensitive_data]
      exact congrArg PyVal.dict (redact_idem_dict es)

theorem redact_idem_list :
    ∀ xs, redactList (redactList xs) = redactList xs
  | .nil => rfl
  | .cons x xs => by
      simp only [redactList]
      exact congrArg₂ PyList.cons (redact_idem_val x) (redact_idem_list xs)

theorem redact_idem_dict :
    ∀ es, redactDict (redactDict es) = redactDict es
  | .nil => rfl
  | .cons k v es => by
      rw [redactDict_cons, redactDict_cons]
      rw [redactEntryVal_idem k v (redact_idem_val v), redact_idem_dict es]
end

theorem redact_atom (v : PyVal) (hv : isAtom v = true) :
    redact_sensitive_data v = v := by
  cases v <;> simp_all [isAtom, redact_sensitive_data]

/-- Lower-casing preserves prefixes. -/
theorem isPrefixB_lower :
    ∀ p s : PyStr, isPrefixB p s = true → isPrefixB (lowerS p) (lowerS s) = true
  | [], _, _ => rfl
  | _ :: _, [], h => by simp [isPrefixB] at h
  | p :: ps, c :: cs, h => by
      simp only [isPrefixB, Bool.and_eq_true, decide_eq_true_eq] at h
      simp only [lowerS, List.map_cons, isPrefixB, Bool.and_eq_true, decide_eq_true_eq]
      exact ⟨by rw [h.1], isPrefixB_lower ps cs h.2⟩

/-- C10: the redaction function is idempotent — applying
`redact_sensitive_data` twice gives the same result as applying it once;
the replacement strings are fixed points, atomic values are left
unchanged, and an entry with a non-sensitive key keeps its key and has
its value processed recursively. -/
theorem claim_C10_redact_idempotent :
    (∀ v : PyVal, redact_sensitive_data (redact_sensitive_data v) = redact_sensitive_data v)
    ∧ (∀ v : PyVal, isAtom v = true → redact_sensitive_data v = v)
    ∧ (∀ (k : PyStr) (v : PyVal) (es : PyDict), is_sensitive k = false →
        redactDict (.cons k v es) = .cons k (redact_sensitive_data v) (redactDict es)) := by
  refine ⟨redact_idem_val, redact_atom, ?_⟩
  intro k v es hk
  rw [redactDict_cons]
  simp [redactEntryVal, hk]

/-- C10 witness: the idempotence theorem applied to a concrete value
with a non-sensitive key. -/
theorem claim_C10_witness :
    redactDict (.cons (pystr "content-type") (.str (pystr "application/json")) .nil)
      = .cons (pystr "content-type")
          (redact_sensitive_data (.str (pystr "application/json"))) (redactDict .nil) :=
  claim_C10_redact_idempotent.2.2 (pystr "content-type")
    (.str (pystr "application/json")) .nil (by decide)

/-- C4 counterexample: an `X-Api-Key` entry whose value is a string starting
with `Bearer ` is replaced by `Bearer [REDACTED]`, not `[REDACTED]`; and a
`prompt_tokens` entry whose value is a nested dict containing a sensitive
key does not keep its original value — the nested value is redacted. -/
theorem claim_C4_counterexample :
    redact_sensitive_data (.dict (.cons (pystr "X-Api-Key") (.str (pystr "Bearer abc")) .nil))
      ≠ .dict (.cons (pystr "X-Api-Key") (.str (pystr "[REDACTED]")) .nil)
    ∧ redact_sensitive_data (.dict (.cons (pystr "prompt_tokens")
          (.dict (.cons (pystr "token") (.str (pystr "xyz")) .nil)) .nil))
      ≠ .dict (.cons (pystr "prompt_tokens")
          (.dict (.cons (pystr "token") (.str (pystr "xyz")) .nil)) .nil) := by
  constructor <;> decide

/-- C4 (amended): in every dict, an entry whose key lower-cases to
`authorization` and whose value is a string starting with `Bearer ` is
replaced by `Bearer [REDACTED]`; an `X-Api-Key` or `token` entry is
replaced by `Bearer [REDACTED]` when its value is a string whose
lower-casing starts with `bearer ` and by `[REDACTED]` otherwise; and a
`prompt_tokens` entry is not treated as sensitive — its value is
processed recursively, which leaves any atomic value unchanged. -/
theorem claim_C4_redaction_policy (d : PyDict) (k : PyStr) (v : PyVal) (s : PyStr)
    (hk : lowerS k = pystr "authorization")
    (hs : isPrefixB (pystr "Bearer ") s = true) :
    redactDict (.cons k (.str s) d)
      = .cons k (.str (pystr "Bearer [REDACTED]")) (redactDict d)
    ∧ redactDict (.cons (pystr "X-Api-Key") v d)
      = .cons (pystr "X-Api-Key")
          (if isBearerVal v then .str (pystr "Bearer [REDACTED]")
           else .str (pystr "[REDACTED]")) (redactDict d)
    ∧ redactDict (.cons (pystr "token") v d)
      = .cons (pystr "token")
          (if isBearerVal v then .str (pystr "Bearer [REDACTED]")
           else .str (pystr "[REDACTED]")) (redactDict d)
    ∧ redactDict (.cons (pystr "prompt_tokens") v d)
      = .cons (pystr "prompt_tokens") (redact_sensitive_data v) (redactDict d)
    ∧ (isAtom v = true → redact_sensitive_data v = v) := by
  have hsens : is_sensitive k = true := by
    unfold is_sensitive
    rw [hk]
    decide
  have hbear : isBearerVal (.str s) = true := by
    have := isPrefixB_lower (pystr "Bearer ") s hs
    simpa [isBearerVal, show lowerS (pystr "Bearer ") = pystr "bearer " from by decide]
      using this
  refine ⟨?_, ?_, ?_, ?_, redact_atom v⟩
  · rw [redactDict_cons]; simp [redactEntryVal, hsens, hbear]
  · rw [redactDict_cons]
    simp [redactEntryVal, show is_sensitive (pystr "X-Api-Key") = true from by decide]
  · rw [redactDict_cons]
    simp [redactEntryVal, show is_sensitive (pystr "token") = true from by decide]
  · rw [redactDict_cons]
    simp [redactEntryVal, show is_sensitive (pystr "prompt_tokens") = false from by decide]

/-- C4 witness: the amended policy applied to a concrete `Authorization`
header carrying a bearer token. -/
theorem claim_C4_witness :
    redactDict (.cons (pystr "Authorization") (.str (pystr "Bearer abc")) .nil)
      = .cons (pystr "Authorization") (.str (pystr "Bearer [REDACTED]")) (redactDict .nil) :=
  (claim_C4_redaction_policy .nil (pystr "Authorization") (.str (pystr "zzz"))
    (pystr "Bearer abc") (by decide) (by decide)).1

/-! ### Theorems: load_history (claim C1) -/

/-- Two sorted permutations of each other with pairwise-distinct sort
keys are equal. -/
theorem eq_of_perm_sorted_nodup :
    ∀ l₁ l₂ : List StoredRec, l₁.Perm l₂ →
      l₁.Sorted keyLe → l₂.Sorted keyLe →
      (l₁.map sort_key).Nodup → l₁ = l₂
  | [], l₂, hp, _, _, _ => hp.nil_eq
  | a :: t₁, [], hp, _, _, _ => by simp [hp.eq_nil] at hp ⊢
  | a :: t₁, b :: t₂, hp, h₁, h₂, hn => by
      have hs₁ := List.sorted_cons.mp h₁
      have hs₂ := List.sorted_cons.mp h₂
      have hn' : (sort_key a :: t₁.map sort_key).Nodup := by simpa using hn
      have hnd := List.nodup_cons.mp hn'
      have hab : a = b := by
        by_contra hne
        have hb : b ∈ t₁ := by
          have : b ∈ a :: t₁ := hp.mem_iff.mpr (List.mem_cons_self b t₂)
          rcases List.mem_cons.mp this with h | h
          · exact absurd h.symm hne
          · exact h
        have ha : a ∈ t₂ := by
          have : a ∈ b :: t₂ := hp.mem_iff.mp (List.mem_cons_self a t₁)
          rcases List.mem_cons.mp this with h | h
          · exact absurd h hne
          · exact h
        have hkey : sort_key a = sort_key b :=
          le_antisymm (hs₁.1 b hb) (hs₂.1 a ha)
        exact hnd.1 (by rw [hkey]; exact List.mem_map_of_mem sort_key hb)
      subst hab
      have ht : t₁ = t₂ :=
        eq_of_perm_sorted_nodup t₁ t₂ hp.cons_inv hs₁.2 hs₂.2 hnd.2
      rw [ht]

/-- C1 counterexample: two records with the same timestamp and ids
`"a"` and `"b"`, enumerated as `[b-record, a-record]`.  `load_history`
keeps them in enumeration order (`list.sort` is stable and `sort_key`
ignores the id when a timestamp is present), so the result differs from
the other enumeration order and from the id-tie-broken order the claim
requires. -/
theorem claim_C1_counterexample :
    load_history [⟨some (pystr "b"), some (pystr "2024-01-01T00:00:00"), pystr "pb"⟩,
                  ⟨some (pystr "a"), some (pystr "2024-01-01T00:00:00"), pystr "pa"⟩]
      ≠ load_history [⟨some (pystr "a"), some (pystr "2024-01-01T00:00:00"), pystr "pa"⟩,
                      ⟨some (pystr "b"), some (pystr "2024-01-01T00:00:00"), pystr "pb"⟩]
    ∧ load_history [⟨some (pystr "b"), some (pystr "2024-01-01T00:00:00"), pystr "pb"⟩,
                    ⟨some (pystr "a"), some (pystr "2024-01-01T00:00:00"), pystr "pa"⟩]
      ≠ [⟨some (pystr "a"), some (pystr "2024-01-01T00:00:00"), pystr "pa"⟩,
         ⟨some (pystr "b"), some (pystr "2024-01-01T00:00:00"), pystr "pb"⟩] := by
  constructor <;> decide

/-- C1 (amended): `load_history` returns the persisted records sorted
ascending by `sort_key` — the timestamp, or the id (default
`0000-00-00T00:00:00`) when the timestamp is missing or empty — as a
permutation of the loaded files; equal keys keep enumeration order (the
sort is stable), so the result is independent of the filesystem
enumeration order whenever the sort keys are pairwise distinct. -/
theorem claim_C1_load_history_sorted (files files' : List StoredRec)
    (hperm : files.Perm files') :
    (load_history files).Perm files
    ∧ (load_history files).Sorted keyLe
    ∧ ((files.map sort_key).Nodup → load_history files = load_history files') := by
  refine ⟨List.perm_insertionSort keyLe files, List.sorted_insertionSort keyLe files, ?_⟩
  intro hnd
  have hp : (load_history files).Perm (load_history files') :=
    ((List.perm_insertionSort keyLe files).trans hperm).trans
      (List.perm_insertionSort keyLe files').symm
  refine eq_of_perm_sorted_nodup _ _ hp
    (List.sorted_insertionSort keyLe files)
    (List.sorted_insertionSort keyLe files') ?_
  exact (((List.perm_insertionSort keyLe files).map sort_key).nodup_iff).mpr hnd

/-- C1 witness: three records with distinct timestamps `t1 < t2 < t3`
under scrambled enumeration order come back sorted, and the result is
the same for a second enumeration order. -/
theorem claim_C1_witness :
    (load_history [⟨some (pystr "u3"), some (pystr "2024-01-03T00:00:00"), pystr "p3"⟩,
                   ⟨some (pystr "u1"), some (pystr "2024-01-01T00:00:00"), pystr "p1"⟩,
                   ⟨some (pystr "u2"), some (pystr "2024-01-02T00:00:00"), pystr "p2"⟩]).Perm
        [⟨some (pystr "u3"), some (pystr "2024-01-03T00:00:00"), pystr "p3"⟩,
         ⟨some (pystr "u1"), some (pystr "2024-01-01T00:00:00"), pystr "p1"⟩,
         ⟨some (pystr "u2"), some (pystr "2024-01-02T00:00:00"), pystr "p2"⟩]
    ∧ (load_history [⟨some (pystr "u3"), some (pystr "2024-01-03T00:00:00"), pystr "p3"⟩,
                     ⟨some (pystr "u1"), some (pystr "2024-01-01T00:00:00"), pystr "p1"⟩,
                     ⟨some (pystr "u2"), some (pystr "2024-01-02T00:00:00"), pystr "p2"⟩]).Sorted keyLe
    ∧ (([⟨some (pystr "u3"), some (pystr "2024-01-03T00:00:00"), pystr "p3"⟩,
         ⟨some (pystr "u1"), some (pystr "2024-01-01T00:00:00"), pystr "p1"⟩,
         ⟨some (pystr "u2"), some (pystr "2024-01-02T00:00:00"), pystr "p2"⟩].map sort_key).Nodup →
        load_history [⟨some (pystr "u3"), some (pystr "2024-01-03T00:00:00"), pystr "p3"⟩,
                      ⟨some (pystr "u1"), some (pystr "2024-01-01T00:00:00"), pystr "p1"⟩,
                      ⟨some (pystr "u2"), some (pystr "2024-01-02T00:00:00"), pystr "p2"⟩]
          = load_history [⟨some (pystr "u1"), some (pystr "2024-01-01T00:00:00"), pystr "p1"⟩,
                          ⟨some (pystr "u2"), some (pystr "2024-01-02T00:00:00"), pystr "p2"⟩,
                          ⟨some (pystr "u3"), some (pystr "2024-01-03T00:00:00"), pystr "p3"⟩]) :=
  claim_C1_load_history_sorted _ _ (by decide)

/-! ### Theorems: catch_all (claims C2, C7, C8) -/

theorem bodyTextOf_eq (ext : Ext) (b : Bytes)
    (h : b = [] ∨ (ext.utf8Strict b).isSome = true) :
    bodyTextOf ext b = some (if b = [] then none else ext.utf8Strict b) := by
  by_cases hb : b = []
  · simp [bodyTextOf, hb]
  · rcases h with h | h
    · exact absurd h hb
    · obtain ⟨s, hs⟩ := Option.isSome_iff_exists.mp h
      simp [bodyTextOf, hb, hs]

theorem catch_all_connectFail (ext : Ext) (st : ProxyState) (req : Req)
    (rid now msg : PyStr)
    (hre : truthyS st.redirect_endpoint = true)
    (hfav : req.path ≠ pystr "favicon.ico")
    (hdec : req.body = [] ∨ (ext.utf8Strict req.body).isSome = true) :
    catch_all ext (.connectFail msg) st req rid now
      = some (connectFailResult ext st req rid now msg) := by
  simp [catch_all, hre, hfav, bodyTextOf_eq ext req.body hdec,
    connectFailResult, requestPhase, issueEv]

theorem catch_all_ok (ext : Ext) (st : ProxyState) (req : Req)
    (rid now : PyStr) (status : Nat) (uhdrs : HDict) (chunks : List Bytes)
    (hre : truthyS st.redirect_endpoint = true)
    (hfav : req.path ≠ pystr "favicon.ico")
    (hdec : req.body = [] ∨ (ext.utf8Strict req.body).isSome = true) :
    catch_all ext (.ok status uhdrs chunks) st req rid now
      = some (okResult ext st req rid now status uhdrs chunks) := by
  simp [catch_all, hre, hfav, bodyTextOf_eq ext req.body hdec,
    okResult, requestPhase, issueEv]

/-- C2: with no redirect endpoint configured, every proxied request to a
non-administrative path other than `favicon.ico` is answered with status
400 and the descriptive JSON error body, nothing is forwarded upstream,
and the state (in-memory history and persisted record files) is
unchanged, with an empty event trace. -/
theorem claim_C2_no_endpoint_reject (ext : Ext) (up : Upstream) (st : ProxyState)
    (req : Req) (rid now : PyStr)
    (hre : truthyS st.redirect_endpoint = false)
    (hfav : req.path ≠ pystr "favicon.ico") :
    catch_all ext up st req rid now = some ⟨.jsonBody 400 noEndpointBody, st, []⟩ := by
  simp [catch_all, hre, hfav]

/-- C2 witness: a concrete GET against a state with no endpoint. -/
theorem claim_C2_witness :
    catch_all ext0 (.ok 200 [] []) stNoEndpoint req0 rid0 now0
      = some ⟨.jsonBody 400 noEndpointBody, stNoEndpoint, []⟩ :=
  claim_C2_no_endpoint_reject ext0 (.ok 200 [] []) stNoEndpoint req0 rid0 now0
    (by decide) (by decide)

/-- C7: if opening the upstream connection fails before headers are
received, the caller gets a 502 with a JSON body describing the failure,
the state is exactly the post-append state — the request record (with no
response sub-object) appended to the history and written through
`save_request` — and there are no chunk events. -/
theorem claim_C7_upstream_connect_failure (ext : Ext) (st : ProxyState) (req : Req)
    (rid now msg : PyStr)
    (hre : truthyS st.redirect_endpoint = true)
    (hfav : req.path ≠ pystr "favicon.ico")
    (hdec : req.body = [] ∨ (ext.utf8Strict req.body).isSome = true) :
    ∃ rec : HttpRecord,
      catch_all ext (.connectFail msg) st req rid now
        = some ⟨.jsonBody 502 (connectFailBody msg),
            { st with requests_history := st.requests_history ++ [rec],
                      files := (save_request st.current_analysis_id st.files rid rec).1 },
            Ev.historyAppend rid :: (save_request st.current_analysis_id st.files rid rec).2
              ++ [issueEv ext st req]⟩
      ∧ rec.id = rid ∧ rec.response = none := by
  exact ⟨requestPhase ext st req rid now,
    catch_all_connectFail ext st req rid now msg hre hfav hdec, rfl, rfl⟩

/-- C7 witness: a concrete connect failure against the active state. -/
theorem claim_C7_witness :
    ∃ rec : HttpRecord,
      catch_all ext0 (.connectFail (pystr "boom")) st0 req0 rid0 now0
        = some ⟨.jsonBody 502 (connectFailBody (pystr "boom")),
            { st0 with requests_history := st0.requests_history ++ [rec],
                       files := (save_request st0.current_analysis_id st0.files rid0 rec).1 },
            Ev.historyAppend rid0 :: (save_request st0.current_analysis_id st0.files rid0 rec).2
              ++ [issueEv ext0 st0 req0]⟩
      ∧ rec.id = rid0 ∧ rec.response = none :=
  claim_C7_upstream_connect_failure ext0 st0 req0 rid0 now0 (pystr "boom")
    (by decide) (by decide) (Or.inl (by decide))

/-- C8 counterexample: with a redirect endpoint from the environment but
no analysis selected — a reachable configuration — the exchange issues
the upstream request but performs no durable record write at all, so the
record is not written to its record file before the outbound request. -/
theorem claim_C8_counterexample :
    ((catch_all ext0 (.ok 200 [] []) stNoAnalysis req0 rid0 now0).map
        (fun r => ((r.events.filter isFileWriteEv).length,
                   (r.events.filter isIssueEv).length)))
      = some (0, 1) := by
  decide

/-- C8 (amended): within every proxied HTTP exchange in which an
analysis is selected, the event trace begins with the history append and
the durable record write, followed by the upstream issue — so the record
is appended and persisted before the outbound request is issued, and in
particular before any response chunk event. -/
theorem claim_C8_append_save_before_issue (ext : Ext) (up : Upstream)
    (st : ProxyState) (req : Req) (rid now : PyStr)
    (hre : truthyS st.redirect_endpoint = true)
    (hfav : req.path ≠ pystr "favicon.ico")
    (hcur : truthyS st.current_analysis_id = true)
    (hdec : req.body = [] ∨ (ext.utf8Strict req.body).isSome = true) :
    ∃ r : CatchAllResult, catch_all ext up st req rid now = some r
      ∧ ∃ rest, r.events
          = Ev.historyAppend rid :: Ev.fileWrite rid :: issueEv ext st req :: rest := by
  cases up with
  | connectFail msg =>
      refine ⟨connectFailResult ext st req rid now msg,
        catch_all_connectFail ext st req rid now msg hre hfav hdec, [], ?_⟩
      simp [connectFailResult, save_request, hcur]
  | ok status uhdrs chunks =>
      refine ⟨okResult ext st req rid now status uhdrs chunks,
        catch_all_ok ext st req rid now status uhdrs chunks hre hfav hdec, ?_⟩
      simp only [okResult, save_request, hcur, if_true, List.cons_append,
        List.singleton_append, List.append_assoc, List.nil_append]
      exact ⟨_, rfl⟩

/-- C8 witness: a concrete exchange against the active state. -/
theorem claim_C8_witness :
    ∃ r : CatchAllResult, catch_all ext0 (.ok 200 [] []) st0 req0 rid0 now0 = some r
      ∧ ∃ rest, r.events
          = Ev.historyAppend rid0 :: Ev.fileWrite rid0 :: issueEv ext0 st0 req0 :: rest :=
  claim_C8_append_save_before_issue ext0 (.ok 200 [] []) st0 req0 rid0 now0
    (by decide) (by decide) (by decide) (Or.inl (by decide))

/-! ### Theorems: streaming and header relay (claims C5, C6) -/

theorem okResult_lastRespBody (ext : Ext) (st : ProxyState) (req : Req)
    (rid now : PyStr) (status : Nat) (uhdrs : HDict) (chunks : List Bytes) :
    lastRespBody (okResult ext st req rid now status uhdrs chunks)
      = some (responseDataOf ext st status uhdrs chunks).body := by
  simp [lastRespBody, okResult, List.getLast?_concat]

/-- C5 counterexample: a response with no body chunks.  The persisted
`response.body` is `None` (the source stores `None` for a falsy byte
string), not the UTF-8 decoding of the empty concatenation, which is the
empty string. -/
theorem claim_C5_counterexample :
    ((catch_all ext0 (.ok 204 [] []) st0 req0 rid0 now0).map lastRespBody)
      = some (some none)
    ∧ (some (some none) : Option (Option (Option PyStr)))
      ≠ some (some (some (ext0.utf8Replace (List.flatten ([] : List Bytes))))) := by
  constructor <;> decide

/-- C5 (amended): for a compressed upstream response (content-encoding
gzip, br or deflate) the generator yields exactly one chunk — the
decompression of the complete concatenation; for any other response the
received chunks are forwarded as they arrive; in both cases the
persisted `response.body` is the UTF-8 decoding (with replacement) of
the full concatenation of received chunks, decompressed when applicable,
except that an empty final body is stored as `None` rather than the
empty string. -/
theorem claim_C5_streaming_and_capture (ext : Ext) (st : ProxyState) (req : Req)
    (rid now : PyStr) (status : Nat) (uhdrs : HDict) (chunks : List Bytes)
    (hre : truthyS st.redirect_endpoint = true)
    (hfav : req.path ≠ pystr "favicon.ico")
    (hdec : req.body = [] ∨ (ext.utf8Strict req.body).isSome = true) :
    ((catch_all ext (.ok status uhdrs chunks) st req rid now).map
        (fun r => (r.resp, lastRespBody r)))
      = some (.streaming status (response_headers_of uhdrs) (content_type_of uhdrs)
                (out_chunks_of ext uhdrs chunks),
              some ((responseDataOf ext st status uhdrs chunks).body))
    ∧ (compressed_encodings.contains (content_encoding_of uhdrs) = true →
        out_chunks_of ext uhdrs chunks
          = [decompress_body ext.decompress chunks.flatten (content_encoding_of uhdrs)])
    ∧ (compressed_encodings.contains (content_encoding_of uhdrs) = false →
        out_chunks_of ext uhdrs chunks = chunks)
    ∧ (responseDataOf ext st status uhdrs chunks).body
        = (if final_body_of ext uhdrs chunks = [] then none
           else some (ext.utf8Replace (final_body_of ext uhdrs chunks))) := by
  refine ⟨?_, ?_, ?_, rfl⟩
  · rw [catch_all_ok ext st req rid now status uhdrs chunks hre hfav hdec]
    simp only [Option.map_some', okResult_lastRespBody]
    rfl
  · intro h
    unfold out_chunks_of
    rw [h]
    simp
  · intro h
    unfold out_chunks_of
    rw [h]
    simp

/-- C5 witness: a concrete uncompressed two-chunk exchange. -/
theorem claim_C5_witness :
    ((catch_all ext0 (.ok 200 [(pystr "content-type", pystr "text/plain")]
          [[104], [105]] ) st0 req0 rid0 now0).map
        (fun r => (r.resp, lastRespBody r)))
      = some (.streaming 200
                (response_headers_of [(pystr "content-type", pystr "text/plain")])
                (content_type_of [(pystr "content-type", pystr "text/plain")])
                (out_chunks_of ext0 [(pystr "content-type", pystr "text/plain")]
                  [[104], [105]]),
              some ((responseDataOf ext0 st0 200
                [(pystr "content-type", pystr "text/plain")] [[104], [105]]).body))
    ∧ (compressed_encodings.contains
          (content_encoding_of [(pystr "content-type", pystr "text/plain")]) = true →
        out_chunks_of ext0 [(pystr "content-type", pystr "text/plain")] [[104], [105]]
          = [decompress_body ext0.decompress ([[104], [105]] : List Bytes).flatten
              (content_encoding_of [(pystr "content-type", pystr "text/plain")])])
    ∧ (compressed_encodings.contains
          (content_encoding_of [(pystr "content-type", pystr "text/plain")]) = false →
        out_chunks_of ext0 [(pystr "content-type", pystr "text/plain")] [[104], [105]]
          = [[104], [105]])
    ∧ (responseDataOf ext0 st0 200 [(pystr "content-type", pystr "text/plain")]
        [[104], [105]]).body
        = (if final_body_of ext0 [(pystr "content-type", pystr "text/plain")]
              [[104], [105]] = [] then none
           else some (ext0.utf8Replace (final_body_of ext0
              [(pystr "content-type", pystr "text/plain")] [[104], [105]]))) :=
  claim_C5_streaming_and_capture ext0 st0 req0 rid0 now0 200
    [(pystr "content-type", pystr "text/plain")] [[104], [105]]
    (by decide) (by decide) (Or.inl (by decide))

theorem response_headers_of_eq_filter (uhdrs : HDict) :
    response_headers_of uhdrs
      = uhdrs.filter (fun kv => decide (kv.1 ∉
          [pystr "content-length", pystr "transfer-encoding", pystr "content-encoding"])) := by
  unfold response_headers_of popKey
  rw [List.filter_filter, List.filter_filter]
  apply List.filter_congr
  intro kv _
  by_cases h1 : kv.1 = pystr "content-length" <;>
    by_cases h2 : kv.1 = pystr "transfer-encoding" <;>
      by_cases h3 : kv.1 = pystr "content-encoding" <;>
        simp [h1, h2, h3]

theorem lower_host_fixed : lowerS (pystr "host") = pystr "host" := by decide

theorem outboundHeaders_eq_filter (req : Req) :
    outboundHeaders req
      = req.headers.filter
          (fun kv => decide (lowerS kv.1 ∉ [pystr "host", pystr "content-length"])) := by
  unfold outboundHeaders popKey
  rw [List.filter_filter]
  apply List.filter_congr
  intro kv _
  by_cases h : kv.1 = pystr "host"
  · rw [h]; decide
  · simp [h]

/-- C6 counterexample: the outbound request headers are not just the
inbound headers with `host` removed — `content-length` is removed as
well.  With inbound headers `host` and `content-length`, the issued
header set is empty while the host-stripped inbound set still carries
`content-length`. -/
theorem claim_C6_counterexample :
    ((catch_all ext0 (.ok 200 [] []) st0 req6 rid0 now0).map
        (fun r => issuedHeaders r.events))
      = some (some [])
    ∧ popKey (pystr "host") req6.headers = [(pystr "content-length", pystr "5")]
    ∧ (some (some ([] : HDict)) : Option (Option HDict))
      ≠ some (some [(pystr "content-length", pystr "5")]) := by
  refine ⟨by decide, by decide, by decide⟩

/-- C6 (amended): the headers relayed downstream are the upstream
response headers with `content-length`, `transfer-encoding` and
`content-encoding` removed and every other entry unchanged; the outbound
request headers are the inbound request headers with both the `host`
header and the `content-length` header (compared case-insensitively)
removed and every other entry unchanged. -/
theorem claim_C6_header_relay (ext : Ext) (st : ProxyState) (req : Req)
    (rid now : PyStr) (status : Nat) (uhdrs : HDict) (chunks : List Bytes)
    (hre : truthyS st.redirect_endpoint = true)
    (hfav : req.path ≠ pystr "favicon.ico")
    (hdec : req.body = [] ∨ (ext.utf8Strict req.body).isSome = true) :
    ((catch_all ext (.ok status uhdrs chunks) st req rid now).map
        (fun r => (r.resp, issuedHeaders r.events)))
      = some (.streaming status (response_headers_of uhdrs) (content_type_of uhdrs)
                (out_chunks_of ext uhdrs chunks),
              some (outboundHeaders req))
    ∧ response_headers_of uhdrs
        = uhdrs.filter (fun kv => decide (kv.1 ∉
            [pystr "content-length", pystr "transfer-encoding", pystr "content-encoding"]))
    ∧ outboundHeaders req
        = req.headers.filter
            (fun kv => decide (lowerS kv.1 ∉ [pystr "host", pystr "content-length"])) := by
  refine ⟨?_, response_headers_of_eq_filter uhdrs, outboundHeaders_eq_filter req⟩
  rw [catch_all_ok ext st req rid now status uhdrs chunks hre hfav hdec]
  by_cases hcur : truthyS st.current_analysis_id = true
  · simp [okResult, save_request, hcur, issuedHeaders, issueEv]
  · simp [okResult, save_request, hcur, issuedHeaders, issueEv]

/-- C6 witness: the amended relay property at a concrete exchange with a
`content-length` request header and upstream framing headers. -/
theorem claim_C6_witness :
    ((catch_all ext0 (.ok 200 [(pystr "content-length", pystr "2"),
          (pystr "content-type", pystr "text/plain")] [[104]]) st0 req6 rid0 now0).map
        (fun r => (r.resp, issuedHeaders r.events)))
      = some (.streaming 200
                (response_headers_of [(pystr "content-length", pystr "2"),
                  (pystr "content-type", pystr "text/plain")])
                (content_type_of [(pystr "content-length", pystr "2"),
                  (pystr "content-type", pystr "text/plain")])
                (out_chunks_of ext0 [(pystr "content-length", pystr "2"),
                  (pystr "content-type", pystr "text/plain")] [[104]]),
              some (outboundHeaders req6))
    ∧ response_headers_of [(pystr "content-length", pystr "2"),
          (pystr "content-type", pystr "text/plain")]
        = ([(pystr "content-length", pystr "2"),
            (pystr "content-type", pystr "text/plain")] : HDict).filter
            (fun kv => decide (kv.1 ∉
              [pystr "content-length", pystr "transfer-encoding", pystr "content-encoding"]))
    ∧ outboundHeaders req6
        = req6.headers.filter
            (fun kv => decide (lowerS kv.1 ∉ [pystr "host", pystr "content-length"])) :=
  claim_C6_header_relay ext0 st0 req6 rid0 now0 200
    [(pystr "content-length", pystr "2"), (pystr "content-type", pystr "text/plain")]
    [[104]] (by decide) (by decide) (Or.inl (by decide))

/-! ### Theorems: redaction scope and WebSocket failure (claims C3, C9) -/

theorem str_redactHeaderVal (k v : PyStr) :
    PyVal.str (redactHeaderVal k v) = redactEntryVal k (.str v) := by
  unfold redactHeaderVal redactEntryVal
  by_cases hk : is_sensitive k = true
  · simp only [hk, if_true, isBearerVal]
    split <;> rfl
  · simp [hk, redact_sensitive_data]

theorem toPyDict_redactHeaders (d : HDict) :
    toPyDict (redactHeaders d) = redactDict (toPyDict d) := by
  induction d with
  | nil => rfl
  | cons kv d ih =>
      obtain ⟨k, v⟩ := kv
      show PyDict.cons k (PyVal.str (redactHeaderVal k v)) (toPyDict (redactHeaders d)) = _
      rw [str_redactHeaderVal, ih]
      rfl

theorem okResult_lastRecord (ext : Ext) (st : ProxyState) (req : Req)
    (rid now : PyStr) (status : Nat) (uhdrs : HDict) (chunks : List Bytes) :
    lastRecord (okResult ext st req rid now status uhdrs chunks)
      = some { requestPhase ext st req rid now with
               response := some (responseDataOf ext st status uhdrs chunks) } := by
  simp [lastRecord, okResult, List.getLast?_concat]

/-- C3: when redaction is enabled for the active session, the redaction
function is applied exactly to the captured request headers and the
captured response headers; the captured request body and `body_json`,
the response body and `body_json`, and every recorded WebSocket message
content are the raw (unredacted) values. -/
theorem claim_C3_redaction_headers_only (ext : Ext) (st : ProxyState) (req : Req)
    (rid now : PyStr) (status : Nat) (uhdrs : HDict) (chunks : List Bytes)
    (hre : truthyS st.redirect_endpoint = true)
    (hfav : req.path ≠ pystr "favicon.ico")
    (hflag : redactFlag st = true)
    (hdec : req.body = [] ∨ (ext.utf8Strict req.body).isSome = true) :
    (∃ rec : HttpRecord,
      ((catch_all ext (.ok status uhdrs chunks) st req rid now).map lastRecord)
        = some (some rec)
      ∧ PyVal.dict (toPyDict rec.headers)
          = redact_sensitive_data (.dict (toPyDict (popKey (pystr "host") req.headers)))
      ∧ rec.body = (if req.body = [] then none else ext.utf8Strict req.body)
      ∧ rec.body_json
          = (if req.body = [] then none else ext.utf8Strict req.body).bind ext.parseJson
      ∧ ∃ resp : RespData, rec.response = some resp
          ∧ PyVal.dict (toPyDict resp.headers)
              = redact_sensitive_data (.dict (toPyDict uhdrs))
          ∧ resp.body = (if final_body_of ext uhdrs chunks = [] then none
              else some (ext.utf8Replace (final_body_of ext uhdrs chunks)))
          ∧ resp.body_json = (if final_body_of ext uhdrs chunks = [] then none
              else match ext.utf8Strict (final_body_of ext uhdrs chunks) with
                | some s => ext.parseJson s
                | none => none))
    ∧ (∀ (observed : List WsObs) (re cur : Option PyStr) (hist : List WsRecord)
          (fls : List (PyStr × WsRecord)) (p r n : PyStr),
        truthyS re = true →
        ∃ wsrec : WsRecord,
          (websocket_endpoint ext (.ok observed) re cur hist fls p r n).history
            = hist ++ [wsrec]
          ∧ wsrec.messages.map (fun m => m.content)
              = observed.map (fun o => match o.frame with
                  | .text s => s
                  | .binary b => ext.utf8Replace b)) := by
  constructor
  · refine ⟨{ requestPhase ext st req rid now with
        response := some (responseDataOf ext st status uhdrs chunks) }, ?_, ?_, rfl, rfl, ?_⟩
    · rw [catch_all_ok ext st req rid now status uhdrs chunks hre hfav hdec]
      simp only [Option.map_some', okResult_lastRecord]
    · show PyVal.dict (toPyDict (requestPhase ext st req rid now).headers) = _
      simp only [requestPhase, requestRecordOf, hflag, if_true]
      rw [toPyDict_redactHeaders]
      rfl
    · refine ⟨responseDataOf ext st status uhdrs chunks, rfl, ?_, rfl, rfl⟩
      show PyVal.dict (toPyDict (if redactFlag st then redactHeaders uhdrs else uhdrs)) = _
      simp only [hflag, if_true]
      rw [toPyDict_redactHeaders]
      rfl
  · intro observed re cur hist fls p r n hre'
    refine ⟨⟨r, n, pystr "websocket", recordPath p, ws_url_of ext (re.getD []) p,
      observed.map (wsMessageOf ext), none⟩, ?_, ?_⟩
    · simp [websocket_endpoint, hre']
    · simp only [List.map_map]
      apply List.map_congr_left
      intro o _
      cases o with
      | mk c t f => cases f <;> rfl

/-- C3 witness: the WebSocket half of the theorem applied to one
concrete text frame, with the redaction-enabled state discharging the
hypotheses of the theorem. -/
theorem claim_C3_witness :
    ∃ wsrec : WsRecord,
      (websocket_endpoint ext0 (.ok [⟨true, now0, .text (pystr "hello")⟩])
          (some (pystr "http://upstream")) (some (pystr "aid")) [] []
          (pystr "chat") rid0 now0).history
        = [] ++ [wsrec]
      ∧ wsrec.messages.map (fun m => m.content)
          = [(⟨true, now0, .text (pystr "hello")⟩ : WsObs)].map
              (fun o => match o.frame with
                | .text s => s
                | .binary b => ext0.utf8Replace b) :=
  (claim_C3_redaction_headers_only ext0 stRedact req0 rid0 now0 200 [] []
      (by decide) (by decide) (by decide) (Or.inl (by decide))).2
    [⟨true, now0, .text (pystr "hello")⟩] (some (pystr "http://upstream"))
    (some (pystr "aid")) [] [] (pystr "chat") rid0 now0 (by decide)

/-- C9 counterexample: with a redirect endpoint from the environment but
no analysis selected — a reachable configuration — a failed upstream
WebSocket connection appends the error record to the in-memory history
but persists no record file at all, not exactly one. -/
theorem claim_C9_counterexample :
    (websocket_endpoint ext0 (.connectFail (pystr "boom"))
        (some (pystr "http://upstream")) none [] [] (pystr "chat") rid0 now0).files = []
    ∧ (websocket_endpoint ext0 (.connectFail (pystr "boom"))
        (some (pystr "http://upstream")) none [] [] (pystr "chat") rid0 now0).history.length
      = 1 := by
  constructor <;> decide

/-- C9 (amended): if opening the upstream WebSocket connection fails
after the inbound connection was accepted, the inbound connection is
closed with code 1011 and a reason naming the failure, exactly one
WebSocket record is appended to the history — carrying the error string
and an empty messages list — and, when an analysis is selected, that
record is persisted exactly once. -/
theorem claim_C9_ws_connect_failure (ext : Ext) (re cur : Option PyStr)
    (hist : List WsRecord) (fls : List (PyStr × WsRecord)) (p rid now msg : PyStr)
    (hre : truthyS re = true) :
    ∃ wsrec : WsRecord,
      websocket_endpoint ext (.connectFail msg) re cur hist fls p rid now
        = ⟨[(1011, pystr "Upstream connection failed: " ++ msg)], true, true,
           hist ++ [wsrec], (save_ws_request cur fls rid wsrec).1,
           Ev.historyAppend rid :: (save_ws_request cur fls rid wsrec).2⟩
      ∧ wsrec.error = some msg ∧ wsrec.messages = [] ∧ wsrec.id = rid
      ∧ (truthyS cur = true →
          (save_ws_request cur fls rid wsrec).1 = setWsFile fls rid wsrec
          ∧ (save_ws_request cur fls rid wsrec).2 = [Ev.fileWrite rid]) := by
  refine ⟨⟨rid, now, pystr "websocket", recordPath p, ws_url_of ext (re.getD []) p,
    [], some msg⟩, ?_, rfl, rfl, rfl, ?_⟩
  · simp [websocket_endpoint, hre]
  · intro hcur
    simp [save_ws_request, hcur]

/-- C9 witness: a concrete failed upstream connection with an analysis
selected. -/
theorem claim_C9_witness :
    ∃ wsrec : WsRecord,
      websocket_endpoint ext0 (.connectFail (pystr "boom"))
          (some (pystr "http://upstream")) (some (pystr "aid")) [] []
          (pystr "chat") rid0 now0
        = ⟨[(1011, pystr "Upstream connection failed: " ++ pystr "boom")], true, true,
           [] ++ [wsrec],
           (save_ws_request (some (pystr "aid")) [] rid0 wsrec).1,
           Ev.historyAppend rid0 :: (save_ws_request (some (pystr "aid")) [] rid0 wsrec).2⟩
      ∧ wsrec.error = some (pystr "boom") ∧ wsrec.messages = [] ∧ wsrec.id = rid0
      ∧ (truthyS (some (pystr "aid")) = true →
          (save_ws_request (some (pystr "aid")) [] rid0 wsrec).1
              = setWsFile [] rid0 wsrec
          ∧ (save_ws_request (some (pystr "aid")) [] rid0 wsrec).2
              = [Ev.fileWrite rid0]) :=
  claim_C9_ws_connect_failure ext0 (some (pystr "http://upstream")) (some (pystr "aid"))
    [] [] (pystr "chat") rid0 now0 (pystr "boom") (by decide)
